import Mathlib

/-!
Verification of the SmartChat mobile-app operator scripts.

The repository is a set of Python scripts orchestrating an Android
emulator and a Cordova build.  This file gives a shallow embedding of the
data model and the decision logic of those scripts and proves properties
about them.  External effects (subprocess execution, the file system, the
Windows registry, wall-clock time) are modelled as explicit inputs:

* a finished external command is a CmdResult (stdout, stderr, returncode);
* a command invocation outcome is a SubprocessOutcome (completed, timed
  out, command not found, or other error), mirroring the except clauses;
* time inside the readiness poller advances by at least the fixed
  5-second sleep per iteration, with arbitrary extra command duration.

String operations mirror Python semantics on the ASCII strings these
scripts handle: the membership test x in s is substring containment,
str.strip removes leading and trailing whitespace.
-/

namespace SmartChat

/-- Python whitespace characters relevant to str.strip for the ASCII
command output handled by these scripts. -/
def pyIsSpace (c : Char) : Bool :=
  c = ' ' || c = '\t' || c = '\n' || c = '\r' || c = '\x0b' || c = '\x0c'

/-- Boolean test that the first list is an initial segment of the second. -/
def prefixOfB : List Char → List Char → Bool
  | [], _ => true
  | _ :: _, [] => false
  | a :: as, b :: bs => a == b && prefixOfB as bs

/-- Scan of the haystack for an occurrence of the needle, mirroring the
substring search of the Python expression needle in haystack. -/
def containsAux (p : List Char) : List Char → Bool
  | [] => prefixOfB p []
  | c :: cs => prefixOfB p (c :: cs) || containsAux p cs

/-- Python substring membership needle in haystack on strings. -/
def strContains (needle hay : String) : Bool :=
  containsAux needle.toList hay.toList

/-- The proposition that needle occurs contiguously inside hay; this is
the specification-level reading of the Python membership test. -/
def SubstringOf (needle hay : String) : Prop :=
  ∃ pre post, hay.toList = pre ++ needle.toList ++ post

/-- Python str.strip: drop leading and trailing whitespace. -/
def pyStrip (s : String) : String :=
  String.mk (((s.toList.dropWhile pyIsSpace).reverse.dropWhile pyIsSpace).reverse)

theorem prefixOfB_iff (p l : List Char) :
    prefixOfB p l = true ↔ ∃ t, l = p ++ t := by
  induction p generalizing l with
  | nil =>
    simp [prefixOfB]
  | cons a as ih =>
    cases l with
    | nil =>
      simp [prefixOfB]
    | cons b bs =>
      simp only [prefixOfB, Bool.and_eq_true, beq_iff_eq, ih, List.cons_append,
        List.cons.injEq]
      constructor
      · rintro ⟨hab, t, ht⟩
        exact ⟨t, hab.symm, ht⟩
      · rintro ⟨t, hab, ht⟩
        exact ⟨hab.symm, t, ht⟩

theorem containsAux_iff (p l : List Char) :
    containsAux p l = true ↔ ∃ s t, l = s ++ p ++ t := by
  induction l with
  | nil =>
    simp only [containsAux, prefixOfB_iff]
    constructor
    · rintro ⟨t, ht⟩
      exact ⟨[], t, by simpa using ht⟩
    · rintro ⟨s, t, ht⟩
      have hs : s = [] := by
        cases s with
        | nil => rfl
        | cons x xs => simp at ht
      subst hs
      exact ⟨t, by simpa using ht⟩
  | cons c cs ih =>
    simp only [containsAux, Bool.or_eq_true, prefixOfB_iff, ih]
    constructor
    · rintro (⟨t, ht⟩ | ⟨s, t, ht⟩)
      · exact ⟨[], t, by simpa using ht⟩
      · exact ⟨c :: s, t, by simp [ht]⟩
    · rintro ⟨s, t, ht⟩
      cases s with
      | nil =>
        exact Or.inl ⟨t, by simpa using ht⟩
      | cons x xs =>
        simp only [List.cons_append, List.cons.injEq] at ht
        exact Or.inr ⟨xs, t, ht.2⟩

theorem strContains_iff (needle hay : String) :
    strContains needle hay = true ↔ SubstringOf needle hay := by
  unfold strContains SubstringOf
  exact containsAux_iff _ _

theorem strContains_single_iff (hay : String) :
    strContains "1" hay = true ↔ '1' ∈ hay.toList := by
  rw [strContains_iff]
  unfold SubstringOf
  constructor
  · rintro ⟨pre, post, h⟩
    rw [h]
    simp [String.toList]
  · intro h
    obtain ⟨pre, post, h⟩ := List.append_of_mem h
    exact ⟨pre, post, by simpa [String.toList] using h⟩

/-! ## External command invocations -/

/-- Result of a finished external command, the part of a Python
CompletedProcess that the scripts inspect. -/
structure CmdResult where
  stdout : String
  stderr : String
  returncode : Int
deriving DecidableEq, Repr

/-- Outcome of one subprocess invocation, mirroring the except clauses of
the two run_command wrappers: the command finished, hit its per-call
timeout, was not found, or raised some other error. -/
inductive SubprocessOutcome where
  | completed (r : CmdResult)
  | timedOut
  | fileNotFound
  | errored (msg : String)
deriving DecidableEq, Repr

/-- CordovaHealthCheck.run_command from cordova_health_check.py: on a
completed command it returns the result; on a timeout or any other error
it appends a message to the issues list and returns None.  The Python
message puts the command between quote marks, elided here. -/
def hc_run_command (cmd : String) (o : SubprocessOutcome) :
    Option CmdResult × List String :=
  match o with
  | SubprocessOutcome.completed r => (some r, [])
  | SubprocessOutcome.timedOut => (none, ["Command timed out: " ++ cmd])
  | SubprocessOutcome.fileNotFound =>
      (none, ["Error executing command " ++ cmd ++ ": file not found"])
  | SubprocessOutcome.errored msg =>
      (none, ["Error executing command " ++ cmd ++ ": " ++ msg])

/-- SystemAuditor.run_command from smartchat_audit.py: returns a triple
(success, stripped stdout, stripped stderr); a timeout, a missing
command or any other error becomes a failure triple. -/
def audit_run_command (timeoutSecs : Nat) (o : SubprocessOutcome) :
    Bool × String × String :=
  match o with
  | SubprocessOutcome.completed r =>
      (r.returncode == 0, pyStrip r.stdout, pyStrip r.stderr)
  | SubprocessOutcome.timedOut =>
      (false, "", "Command timed out after " ++ toString timeoutSecs ++ " seconds")
  | SubprocessOutcome.fileNotFound => (false, "", "Command not found")
  | SubprocessOutcome.errored msg => (false, "", msg)

/-! ## Emulator serial resolution

get_active_emulator_serial searches the device-listing output with the
Python regular expression (emulator-\d+)\s+device and returns the first
captured group.  Because a shorter digit run is followed by another
digit (never whitespace) and a shorter whitespace run is followed by
another whitespace character (never the letter d), greedy matching with
backtracking succeeds at a position exactly when the literal
emulator- is followed by the maximal nonempty digit run, then the
maximal nonempty whitespace run, then the literal device; matchHere
below decides exactly that. -/

/-- Attempt to match (emulator-\d+)\s+device at the head of the list,
returning the captured group emulator-<digits>. -/
def matchHere (l : List Char) : Option (List Char) :=
  if prefixOfB "emulator-".toList l then
    let rest := l.drop 9
    let ds := rest.takeWhile Char.isDigit
    let rest2 := rest.dropWhile Char.isDigit
    let ws := rest2.takeWhile pyIsSpace
    let rest3 := rest2.dropWhile pyIsSpace
    if ds.isEmpty then none
    else if ws.isEmpty then none
    else if prefixOfB "device".toList rest3 then some ("emulator-".toList ++ ds)
    else none
  else none

/-- Leftmost match of the pattern, as re.findall followed by taking the
first element. -/
def findFirstMatch : List Char → Option (List Char)
  | [] => none
  | c :: cs =>
    match matchHere (c :: cs) with
    | some m => some m
    | none => findFirstMatch cs

/-- CordovaHealthCheck.get_active_emulator_serial: on truthy command
result and stdout, return the first regex match, else None. -/
def get_active_emulator_serial (res : Option CmdResult) : Option String :=
  match res with
  | some r =>
    if r.stdout = "" then none
    else (findFirstMatch r.stdout.toList).map fun m => String.mk m
  | none => none

/-! ## Readiness step predicates (wait_for_device_fully_ready body) -/

/-- Step 2: the listing command returned, the cached serial occurs in its
stdout, and the token offline occurs nowhere in that stdout. -/
def step2_ok (serial : String) (res : Option CmdResult) : Bool :=
  match res with
  | some r => strContains serial r.stdout && !(strContains "offline" r.stdout)
  | none => false

/-- Step 3: the boot-completion query returned and the character 1 occurs
in its stripped stdout. -/
def step3_ok (res : Option CmdResult) : Bool :=
  match res with
  | some r => strContains "1" (pyStrip r.stdout)
  | none => false

/-- Step 4: the package-manager query returned with exit status zero. -/
def step4_ok (res : Option CmdResult) : Bool :=
  match res with
  | some r => r.returncode == 0
  | none => false

/-- Step 5: the service query returned and its stdout contains found. -/
def step5_ok (res : Option CmdResult) : Bool :=
  match res with
  | some r => strContains "found" r.stdout
  | none => false

/-! ## The device-readiness poller -/

/-- Mutable state the poller reads and writes: the serial cached on the
CordovaHealthCheck instance (emulator_serial attribute, surviving across
calls) and the local highest-step counter steps_passed. -/
structure PollState where
  emulator_serial : Option String
  steps_passed : Nat
deriving DecidableEq, Repr

/-- Outcomes of the up to five probe commands one loop iteration may
issue: the listing run by get_active_emulator_serial, the listing of
step 2, the boot-completion query, the package-manager query and the
service query. -/
structure ProbeOutcomes where
  devicesListA : Option CmdResult
  devicesListB : Option CmdResult
  bootResult : Option CmdResult
  pmResult : Option CmdResult
  serviceResult : Option CmdResult

/-- Steps 2 to 5 of one iteration, entered with a resolved serial and the
counter value after step 1; returns the new state and whether the
function returned True in this iteration. -/
def pollSteps (s : String) (steps1 : Nat) (o : ProbeOutcomes) : PollState × Bool :=
  if step2_ok s o.devicesListB then
    let steps2 := max steps1 2
    if step3_ok o.bootResult then
      let steps3 := max steps2 3
      if step4_ok o.pmResult then
        let steps4 := max steps3 4
        if step5_ok o.serviceResult then
          (PollState.mk (some s) (max steps4 5), true)
        else (PollState.mk (some s) steps4, false)
      else (PollState.mk (some s) steps3, false)
    else (PollState.mk (some s) steps2, false)
  else (PollState.mk (some s) steps1, false)

/-- One iteration of the while loop of wait_for_device_fully_ready.  If
no serial is cached, step 1 resolves it; on failure the iteration sleeps
and continues without probing further.  Otherwise steps 2 to 5 run in
sequence, each only after the previous succeeded. -/
def pollIter (st : PollState) (o : ProbeOutcomes) : PollState × Bool :=
  match st.emulator_serial with
  | none =>
    match get_active_emulator_serial o.devicesListA with
    | none => (PollState.mk none st.steps_passed, false)
    | some s => pollSteps s (max st.steps_passed 1) o
  | some s => pollSteps s st.steps_passed o

/-- The timed while loop.  Iteration i runs only while the elapsed time
is below the timeout; a non-returning iteration then advances the clock
by the fixed 5-second sleep plus the nonnegative duration extra i of its
probe commands. -/
def runPollAux (outs : Nat → ProbeOutcomes) (extra : Nat → Nat) (timeout : Nat)
    (i elapsed : Nat) (st : PollState) : PollState × Bool :=
  if elapsed < timeout then
    let step := pollIter st (outs i)
    if step.2 then (step.1, true)
    else runPollAux outs extra timeout (i + 1) (elapsed + 5 + extra i) step.1
  else (st, false)
termination_by timeout - elapsed
decreasing_by omega

/-- wait_for_device_fully_ready: starts with elapsed time 0, the serial
cached on the instance and a fresh steps_passed of 0; returns the final
state and the boolean result. -/
def wait_for_device_fully_ready (timeout : Nat) (cached : Option String)
    (outs : Nat → ProbeOutcomes) (extra : Nat → Nat) : PollState × Bool :=
  runPollAux outs extra timeout 0 0 (PollState.mk cached 0)

/-- The state after n iterations of the polling loop, for reasoning about
the trajectory of steps_passed across a session. -/
def iterStates (st : PollState) (outs : Nat → ProbeOutcomes) : Nat → PollState
  | 0 => st
  | n + 1 => (pollIter (iterStates st outs n) (outs n)).1

/-! ## The environment auditor (smartchat_audit.py) -/

/-- AuditResult from smartchat_audit.py: one check outcome. -/
structure AuditResult where
  name : String
  passed : Bool
  details : String
  warning : Bool
  fix_suggestion : String
deriving DecidableEq, Repr

/-- The name-independent payload one check computes; every check method
of SystemAuditor fixes its requirement name and fills these fields. -/
structure CheckOut where
  passed : Bool
  details : String
  warning : Bool
  fix_suggestion : String

/-- Attach the fixed requirement name of a check to its payload. -/
def mkResult (name : String) (c : CheckOut) : AuditResult :=
  AuditResult.mk name c.passed c.details c.warning c.fix_suggestion

/-- Environment a whole audit run observes: what each individual check
would report, plus the SDK path check_android_sdk resolves (None when
the SDK is not found, in which case its AuditResult is the failed one). -/
structure AuditEnv where
  java : CheckOut
  cordova : CheckOut
  studio : CheckOut
  sdkPath : Option String
  pathComp : String → CheckOut
  emu : CheckOut
  gradle : CheckOut
  node : CheckOut
  python : CheckOut

/-- check_android_sdk result: passes with the discovered path as details
exactly when a path was found. -/
def sdkResult (e : AuditEnv) : AuditResult :=
  match e.sdkPath with
  | some p => AuditResult.mk "Android SDK" true p false ""
  | none =>
    AuditResult.mk "Android SDK" false "Not found" false
      "Set ANDROID_HOME environment variable or install Android SDK"

/-- check_sdk_version_config returns this constant informational result. -/
def sdk_version_config_result : AuditResult :=
  AuditResult.mk "SDK Version Config" true "Min SDK: 24, Max SDK: 35" true
    "Ensure build.gradle has minSdkVersion 24 and targetSdkVersion 35"

/-- The five SDK subdirectories checked for PATH membership, shared by
smartchat_audit.py (path_components) and setup_cordova_path.py
(get_required_paths). -/
def path_components : List String :=
  ["emulator", "platform-tools", "tools", "tools/bin", "cmdline-tools/latest/bin"]

/-- SystemAuditor.run_audit: the ordered results list.  When the SDK path
was found, the five PATH checks plus the emulator and gradle checks run;
otherwise the five PATH checks are recorded as failed with details
SDK not found and the emulator and gradle checks do not run at all. -/
def run_audit (e : AuditEnv) : List AuditResult :=
  [mkResult "OpenJDK 17.0.17" e.java,
   mkResult "Cordova (latest)" e.cordova,
   mkResult "Android Studio" e.studio,
   sdkResult e]
  ++ (match e.sdkPath with
      | some _ =>
        (path_components.map fun c => mkResult ("PATH - " ++ c) (e.pathComp c))
        ++ [mkResult "Pixel_4 Emulator" e.emu, mkResult "Gradle 8.13+" e.gradle]
      | none =>
        path_components.map fun c =>
          AuditResult.mk ("PATH - " ++ c) false "SDK not found" false "")
  ++ [sdk_version_config_result,
      mkResult "Node.js" e.node,
      mkResult "Python 3.x" e.python]

/-- Status string written for a result in the persisted report file by
generate_report: PASS if passed, else WARNING if the warning flag is
set, else FAIL. -/
def report_status (r : AuditResult) : String :=
  if r.passed then "PASS" else if r.warning then "WARNING" else "FAIL"

/-- How one invocation of the audit script ended. -/
inductive AuditRun where
  | completed (results : List AuditResult)
  | interrupted
  | fatalError (msg : String)

/-- Exit code of smartchat_audit.py main: 0 when the number of passed
results equals the total, 1 otherwise, 130 on keyboard interrupt, 1 on
any other fatal error. -/
def audit_exit_code : AuditRun → Nat
  | AuditRun.completed rs =>
      if rs.countP (fun r => r.passed) = rs.length then 0 else 1
  | AuditRun.interrupted => 130
  | AuditRun.fatalError _ => 1

/-! ## Process exit codes of the other entry points -/

/-- Exit code of cordova_health_check.py main as a function of which
stage succeeded.  Only a pre-requisite failure calls sys.exit(1); every
other path (emulator start failure, install failure, success) prints its
report and falls off the end of main, so the process exits 0. -/
def cordova_main_exit (health_ok emulator_ok install_ok : Bool) : Nat :=
  if !health_ok then 1
  else if emulator_ok then
    if install_ok then 0 else 0
  else 0

/-- How one invocation of setup_cordova_path.py ended: refused on a
non-Windows platform, or CordovaPathSetup.run returned a boolean. -/
inductive SetupRun where
  | notWindows
  | finished (success : Bool)
deriving DecidableEq, Repr

/-- Exit code of the setup_cordova_path.py main block: 1 off Windows,
else 0 exactly when run() returned True.  The script installs no
interrupt handler and never produces 130 itself. -/
def setup_exit_code : SetupRun → Nat
  | SetupRun.notWindows => 1
  | SetupRun.finished b => if b then 0 else 1

/-! ## PATH computation (setup_cordova_path.py) -/

/-- CordovaPathSetup.get_required_paths: the five subdirectories joined
under the SDK root, keeping only those existing on disk.  Path joining
and the file system are inputs. -/
def get_required_paths (android_home : Option String)
    (existsOnDisk : String → Bool) (join : String → String → String) :
    List String :=
  match android_home with
  | none => []
  | some base => (path_components.map (join base)).filter existsOnDisk

/-- Split a character list at every semicolon, as the Python
str.split call with separator semicolon does (keeping empty pieces). -/
def splitSemiAux : List Char → List Char → List (List Char)
  | [], acc => [acc.reverse]
  | c :: cs, acc =>
    if c = ';' then acc.reverse :: splitSemiAux cs []
    else splitSemiAux cs (c :: acc)

/-- Split the registry PATH value on semicolons, strip each entry and
drop empties, as check_paths does before comparing. -/
def parse_path (s : String) : List String :=
  ((splitSemiAux s.toList []).map (fun l => pyStrip (String.mk l))).filter
    (fun p => !(p == ""))

/-- The loop of check_paths: partition the required paths, in order, by
whether some current PATH entry normalizes to the same string.  The
normalization (os.path.normpath followed by lower-casing) is an input. -/
def check_paths_go (norm : String → String) (cur : List String) :
    List String → List String × List String
  | [] => ([], [])
  | rp :: rest =>
    let found := cur.any (fun p => norm p == norm rp)
    let prev := check_paths_go norm cur rest
    if found then (rp :: prev.1, prev.2) else (prev.1, rp :: prev.2)

/-- CordovaPathSetup.check_paths: returns (existing, missing, all
present), the last being the boolean the method returns while the two
lists land in the instance attributes. -/
def check_paths (norm : String → String) (current_path : String)
    (required : List String) : List String × List String × Bool :=
  let parts := check_paths_go norm (parse_path current_path) required
  (parts.1, parts.2, parts.2.length == 0)

/-! ## Supporting lemmas -/

theorem matchHere_nil : matchHere [] = none := by decide

theorem findFirstMatch_none_iff (l : List Char) :
    findFirstMatch l = none ↔ ∀ i, matchHere (l.drop i) = none := by
  induction l with
  | nil =>
    simp [findFirstMatch, matchHere_nil]
  | cons c cs ih =>
    cases h : matchHere (c :: cs) with
    | some m =>
      simp only [findFirstMatch, h]
      constructor
      · intro hfalse
        exact absurd hfalse (by simp)
      · intro hall
        have := hall 0
        simp [h] at this
    | none =>
      simp only [findFirstMatch, h, ih]
      constructor
      · intro hall i
        cases i with
        | zero => exact h
        | succ j => exact hall j
      · intro hall j
        exact hall (j + 1)

theorem findFirstMatch_some (l m : List Char) (h : findFirstMatch l = some m) :
    ∃ i, matchHere (l.drop i) = some m ∧
      ∀ j, j < i → matchHere (l.drop j) = none := by
  induction l with
  | nil => simp [findFirstMatch] at h
  | cons c cs ih =>
    cases hm : matchHere (c :: cs) with
    | some m0 =>
      simp only [findFirstMatch, hm, Option.some.injEq] at h
      subst h
      exact ⟨0, hm, fun j hj => absurd hj (Nat.not_lt_zero j)⟩
    | none =>
      simp only [findFirstMatch, hm] at h
      obtain ⟨i, hi, hj⟩ := ih h
      refine ⟨i + 1, hi, fun j hlt => ?_⟩
      cases j with
      | zero => exact hm
      | succ j0 => exact hj j0 (Nat.lt_of_succ_lt_succ hlt)

theorem pollSteps_steps_le (s : String) (steps1 : Nat) (o : ProbeOutcomes) :
    steps1 ≤ (pollSteps s steps1 o).1.steps_passed := by
  unfold pollSteps
  split
  · split
    · split
      · split
        · dsimp only
          omega
        · dsimp only
          omega
      · dsimp only
        omega
    · dsimp only
      omega
  · dsimp only
    omega

theorem pollIter_steps_mono (st : PollState) (o : ProbeOutcomes) :
    st.steps_passed ≤ (pollIter st o).1.steps_passed := by
  unfold pollIter
  cases hs : st.emulator_serial with
  | none =>
    cases hg : get_active_emulator_serial o.devicesListA with
    | none => exact Nat.le_refl _
    | some s =>
      exact Nat.le_trans (Nat.le_max_left _ 1) (pollSteps_steps_le s _ o)
  | some s => exact pollSteps_steps_le s st.steps_passed o

/-! ## Claim theorems -/

/-- C1: within one call of wait_for_device_fully_ready the counter
steps_passed is monotonically non-decreasing: for every cached serial
and every sequence of probe outcomes, its value after iteration n is at
least its value after any earlier iteration m of the same session. -/
theorem C1_steps_passed_monotone (cached : Option String)
    (outs : Nat → ProbeOutcomes) (m n : Nat) (h : m ≤ n) :
    (iterStates (PollState.mk cached 0) outs m).steps_passed ≤
      (iterStates (PollState.mk cached 0) outs n).steps_passed := by
  induction n with
  | zero =>
    have hm : m = 0 := Nat.le_zero.mp h
    subst hm
    exact Nat.le_refl _
  | succ k ih =>
    rcases Nat.eq_or_lt_of_le h with rfl | hlt
    · exact Nat.le_refl _
    · have hk : m ≤ k := Nat.lt_succ_iff.mp hlt
      exact Nat.le_trans (ih hk)
        (pollIter_steps_mono (iterStates (PollState.mk cached 0) outs k) (outs k))

/-- A probe trace in which every step succeeds, used to instantiate the
universally quantified theorems at a concrete input. -/
def sampleProbe : ProbeOutcomes :=
  ProbeOutcomes.mk
    (some (CmdResult.mk "List of devices attached\nemulator-5554\tdevice\n" "" 0))
    (some (CmdResult.mk "emulator-5554\tdevice" "" 0))
    (some (CmdResult.mk "1" "" 0))
    (some (CmdResult.mk "package:/system/framework/framework-res.apk" "" 0))
    (some (CmdResult.mk "Service package: found" "" 0))

/-- Witness for C1 at a concrete session: one and two iterations on an
all-success probe trace. -/
theorem C1_witness :
    (iterStates (PollState.mk none 0) (fun _ => sampleProbe) 1).steps_passed ≤
      (iterStates (PollState.mk none 0) (fun _ => sampleProbe) 2).steps_passed :=
  C1_steps_passed_monotone none (fun _ => sampleProbe) 1 2 (by decide)

/-- C2 (amended): the resolver returns the identifier captured by the
leftmost position matching emulator-<digits> followed by whitespace and
the token device, and None exactly when no position matches; on the
canonical listing output it returns emulator-5554. -/
theorem C2_resolver_first_match (r : CmdResult) :
    (∀ m, get_active_emulator_serial (some r) = some m →
        ∃ i, matchHere (r.stdout.toList.drop i) = some m.toList ∧
          ∀ j, j < i → matchHere (r.stdout.toList.drop j) = none)
    ∧ (get_active_emulator_serial (some r) = none ↔
        ∀ i, matchHere (r.stdout.toList.drop i) = none)
    ∧ (r.stdout = "List of devices attached\nemulator-5554\tdevice\n" →
        get_active_emulator_serial (some r) = some "emulator-5554")
    ∧ get_active_emulator_serial none = none := by
  refine ⟨?_, ?_, ?_, rfl⟩
  · intro m hm
    simp only [get_active_emulator_serial] at hm
    by_cases he : r.stdout = ""
    · rw [if_pos he] at hm
      exact absurd hm (by simp)
    · rw [if_neg he, Option.map_eq_some'] at hm
      obtain ⟨a, ha, hma⟩ := hm
      have hml : m.toList = a := by
        subst hma
        rfl
      rw [hml]
      exact findFirstMatch_some _ a ha
  · simp only [get_active_emulator_serial]
    by_cases he : r.stdout = ""
    · rw [if_pos he, he]
      constructor
      · intro _ i
        have hnil : ("" : String).toList = [] := rfl
        rw [hnil, List.drop_nil]
        exact matchHere_nil
      · intro _
        rfl
    · rw [if_neg he, Option.map_eq_none']
      exact findFirstMatch_none_iff _
  · intro h
    simp only [get_active_emulator_serial, h]
    decide

/-- Witness for C2 at the canonical device listing. -/
theorem C2_witness :
    get_active_emulator_serial
        (some (CmdResult.mk "List of devices attached\nemulator-5554\tdevice\n" "" 0)) =
      some "emulator-5554" :=
  (C2_resolver_first_match
      (CmdResult.mk "List of devices attached\nemulator-5554\tdevice\n" "" 0)).2.2.1 rfl

/-- C2 counterexample: a listing that contains emulator-5554 followed by
tab and device, yet on which the resolver returns the earlier
identifier emulator-1, not emulator-5554. -/
theorem C2_counterexample :
    strContains "emulator-5554\tdevice"
        "emulator-1\tdevice\nemulator-5554\tdevice" = true
    ∧ get_active_emulator_serial
        (some (CmdResult.mk "emulator-1\tdevice\nemulator-5554\tdevice" "" 0)) =
      some "emulator-1"
    ∧ get_active_emulator_serial
        (some (CmdResult.mk "emulator-1\tdevice\nemulator-5554\tdevice" "" 0)) ≠
      some "emulator-5554" := by
  refine ⟨by decide, by decide, by decide⟩

/-- C3 (amended): step 3 is satisfied exactly when the trimmed query
output contains the character 1 somewhere; in particular an output
trimming to 0 fails it and an output trimming to 1 satisfies it, and a
failed query fails it. -/
theorem C3_boot_completed_substring (r : CmdResult) :
    (step3_ok (some r) = true ↔ '1' ∈ (pyStrip r.stdout).toList)
    ∧ (pyStrip r.stdout = "0" → step3_ok (some r) = false)
    ∧ (pyStrip r.stdout = "1" → step3_ok (some r) = true)
    ∧ step3_ok none = false := by
  refine ⟨?_, ?_, ?_, rfl⟩
  · simp only [step3_ok]
    exact strContains_single_iff _
  · intro h
    simp only [step3_ok, h]
    decide
  · intro h
    simp only [step3_ok, h]
    decide

/-- Witness for C3: the query output 1 satisfies step 3. -/
theorem C3_witness : step3_ok (some (CmdResult.mk "1" "" 0)) = true :=
  (C3_boot_completed_substring (CmdResult.mk "1" "" 0)).2.2.1 (by decide)

/-- C3 counterexample: the output 10 trims to 10, which does not report
value 1, yet step 3 is satisfied on it. -/
theorem C3_counterexample :
    step3_ok (some (CmdResult.mk "10" "" 0)) = true ∧ pyStrip "10" ≠ "1" := by
  refine ⟨by decide, by decide⟩

/-- C4: with a timeout of 0 the poller returns False at once without
consulting any probe outcome: the result is the same for every outcome
stream, the cached serial is untouched and steps_passed is 0. -/
theorem C4_zero_timeout (cached : Option String) (outs : Nat → ProbeOutcomes)
    (extra : Nat → Nat) :
    wait_for_device_fully_ready 0 cached outs extra =
      (PollState.mk cached 0, false) := by
  unfold wait_for_device_fully_ready
  unfold runPollAux
  simp

/-- C5 (amended): step 2 is satisfied exactly when the listing returned,
the resolved serial occurs in its output and the token offline occurs
nowhere in that output; a failed listing fails it. -/
theorem C5_step2_characterization (s : String) (r : CmdResult) :
    (step2_ok s (some r) = true ↔
      SubstringOf s r.stdout ∧ ¬ SubstringOf "offline" r.stdout)
    ∧ step2_ok s none = false := by
  refine ⟨?_, rfl⟩
  rw [← strContains_iff, ← strContains_iff]
  simp only [step2_ok, Bool.and_eq_true, Bool.not_eq_true']
  constructor
  · rintro ⟨h1, h2⟩
    exact ⟨h1, by simp [h2]⟩
  · rintro ⟨h1, h2⟩
    exact ⟨h1, by simpa using h2⟩

/-- Witness for C5: the report emulator-5554 tab offline fails step 2,
the scenario named by the specification. -/
theorem C5_witness :
    step2_ok "emulator-5554"
        (some (CmdResult.mk "emulator-5554\toffline" "" 0)) = false := by
  have h := (C5_step2_characterization "emulator-5554"
      (CmdResult.mk "emulator-5554\toffline" "" 0)).1
  cases hb : step2_ok "emulator-5554"
      (some (CmdResult.mk "emulator-5554\toffline" "" 0)) with
  | false => rfl
  | true =>
    exact absurd ((strContains_iff "offline" "emulator-5554\toffline").mp (by decide))
      ((h.mp hb).2)

/-- C5 counterexample: the resolved identifier is listed as attached
with status device and is not itself offline, but another device is, so
the code fails step 2 anyway. -/
theorem C5_counterexample :
    strContains "emulator-5554\tdevice"
        "emulator-5554\tdevice\nemulator-5556\toffline" = true
    ∧ strContains "emulator-5554\toffline"
        "emulator-5554\tdevice\nemulator-5556\toffline" = false
    ∧ step2_ok "emulator-5554"
        (some (CmdResult.mk "emulator-5554\tdevice\nemulator-5556\toffline" "" 0)) =
      false := by
  refine ⟨by decide, by decide, by decide⟩

/-- A passing payload for instantiating audit environments. -/
def trivialCheck : CheckOut := CheckOut.mk true "" false ""

/-- A concrete audit environment in which the SDK is not found. -/
def sampleEnvNoSdk : AuditEnv :=
  AuditEnv.mk trivialCheck trivialCheck trivialCheck none (fun _ => trivialCheck)
    trivialCheck trivialCheck trivialCheck trivialCheck

/-- The same environment with the SDK found. -/
def sampleEnvSdk : AuditEnv :=
  AuditEnv.mk trivialCheck trivialCheck trivialCheck (some "C:/Android/Sdk")
    (fun _ => trivialCheck) trivialCheck trivialCheck trivialCheck trivialCheck

/-- C6 (amended): when the SDK-location check fails, each of the five
PATH checks is recorded as failed with details SDK not found, the
emulator and gradle checks leave no result at all, and the Java,
Cordova, Android Studio, SDK, SDK-config, Node.js and Python checks are
still recorded. -/
theorem C6_audit_sdk_missing (e : AuditEnv) (h : e.sdkPath = none) :
    (∀ c ∈ path_components,
        AuditResult.mk ("PATH - " ++ c) false "SDK not found" false "" ∈ run_audit e)
    ∧ (∀ r ∈ run_audit e, r.name ≠ "Pixel_4 Emulator" ∧ r.name ≠ "Gradle 8.13+")
    ∧ mkResult "OpenJDK 17.0.17" e.java ∈ run_audit e
    ∧ mkResult "Cordova (latest)" e.cordova ∈ run_audit e
    ∧ mkResult "Android Studio" e.studio ∈ run_audit e
    ∧ sdkResult e ∈ run_audit e
    ∧ sdk_version_config_result ∈ run_audit e
    ∧ mkResult "Node.js" e.node ∈ run_audit e
    ∧ mkResult "Python 3.x" e.python ∈ run_audit e := by
  have hsdk : sdkResult e =
      AuditResult.mk "Android SDK" false "Not found" false
        "Set ANDROID_HOME environment variable or install Android SDK" := by
    simp [sdkResult, h]
  have hra : run_audit e =
      [mkResult "OpenJDK 17.0.17" e.java,
       mkResult "Cordova (latest)" e.cordova,
       mkResult "Android Studio" e.studio,
       sdkResult e]
      ++ (path_components.map fun c =>
          AuditResult.mk ("PATH - " ++ c) false "SDK not found" false "")
      ++ [sdk_version_config_result,
          mkResult "Node.js" e.node,
          mkResult "Python 3.x" e.python] := by
    simp only [run_audit, h]
  refine ⟨?_, ?_, ?_, ?_, ?_, ?_, ?_, ?_, ?_⟩
  · intro c hc
    rw [hra]
    exact List.mem_append_left _
      (List.mem_append_right _ (List.mem_map_of_mem _ hc))
  · intro r hr
    rw [hra, hsdk] at hr
    rcases List.mem_append.mp hr with hAB | hC
    · rcases List.mem_append.mp hAB with hA | hB
      · simp only [List.mem_cons, List.not_mem_nil, or_false] at hA
        rcases hA with rfl | rfl | rfl | rfl
        · constructor <;> (intro hx; simp [mkResult] at hx)
        · constructor <;> (intro hx; simp [mkResult] at hx)
        · constructor <;> (intro hx; simp [mkResult] at hx)
        · constructor <;> (intro hx; simp at hx)
      · rcases List.mem_map.mp hB with ⟨c, hc, hrc⟩
        subst hrc
        fin_cases hc <;> exact ⟨by decide, by decide⟩
    · simp only [List.mem_cons, List.not_mem_nil, or_false] at hC
      rcases hC with rfl | rfl | rfl
      · constructor <;> (intro hx; simp [sdk_version_config_result] at hx)
      · constructor <;> (intro hx; simp [mkResult] at hx)
      · constructor <;> (intro hx; simp [mkResult] at hx)
  · rw [hra]
    simp
  · rw [hra]
    simp
  · rw [hra]
    simp
  · rw [hra]
    simp
  · rw [hra]
    simp
  · rw [hra]
    simp
  · rw [hra]
    simp

/-- Witness for C6: in a concrete SDK-less environment the failed PATH
result for the emulator subdirectory is recorded. -/
theorem C6_witness :
    AuditResult.mk "PATH - emulator" false "SDK not found" false "" ∈
      run_audit sampleEnvNoSdk :=
  (C6_audit_sdk_missing sampleEnvNoSdk rfl).1 "emulator" (by decide)

/-- C6 counterexample: the emulator and gradle checks consume the SDK
path and are among the audit checks when the SDK is found, but when the
SDK-location check fails they are skipped without any recorded result,
so not every SDK-path-dependent check is recorded as failed with reason
SDK not found, and the gradle check is not run regardless. -/
theorem C6_counterexample :
    ((run_audit sampleEnvSdk).any (fun r => r.name == "Pixel_4 Emulator")) = true
    ∧ ((run_audit sampleEnvSdk).any (fun r => r.name == "Gradle 8.13+")) = true
    ∧ ((run_audit sampleEnvNoSdk).all (fun r => r.name != "Pixel_4 Emulator")) = true
    ∧ ((run_audit sampleEnvNoSdk).all (fun r => r.name != "Gradle 8.13+")) = true := by
  refine ⟨by decide, by decide, by decide, by decide⟩

/-- C7 (amended): the audit script exits 0 exactly when every check
passed, 130 on interrupt and 1 on a fatal error; the health-check script
exits 1 exactly on pre-requisite failure and 0 on every other path, also
when the emulator or the install failed; the path-setup script exits 0
exactly when its run returned success and can never exit 130. -/
theorem C7_exit_codes (rs : List AuditResult) (e i : Bool) (s : SetupRun) :
    (audit_exit_code (AuditRun.completed rs) = 0 ↔ ∀ r ∈ rs, r.passed = true)
    ∧ audit_exit_code AuditRun.interrupted = 130
    ∧ (∀ msg, audit_exit_code (AuditRun.fatalError msg) = 1)
    ∧ cordova_main_exit false e i = 1
    ∧ cordova_main_exit true e i = 0
    ∧ setup_exit_code s ≠ 130
    ∧ (setup_exit_code s = 0 ↔ s = SetupRun.finished true) := by
  refine ⟨?_, rfl, fun _ => rfl, rfl, ?_, ?_, ?_⟩
  · simp only [audit_exit_code]
    by_cases hc : rs.countP (fun r => r.passed) = rs.length
    · rw [if_pos hc]
      simp only [eq_self_iff_true, true_iff]
      exact List.countP_eq_length.mp hc
    · rw [if_neg hc]
      constructor
      · intro hfalse
        exact absurd hfalse (by decide)
      · intro hall
        exact absurd (List.countP_eq_length.mpr hall) hc
  · cases e <;> cases i <;> rfl
  · cases s with
    | notWindows => decide
    | finished b => cases b <;> decide
  · cases s with
    | notWindows => simp [setup_exit_code]
    | finished b => cases b <;> simp [setup_exit_code]

/-- Witness for C7 at concrete inputs: interrupt exits 130 and an
all-passed empty result list exits 0. -/
theorem C7_witness :
    audit_exit_code AuditRun.interrupted = 130 :=
  (C7_exit_codes [] false false SetupRun.notWindows).2.1

/-- C7 counterexample: the health-check run whose pre-requisites pass
but whose emulator fails to start is a failed run, yet main falls off
its try block and the process exits 0, not 1. -/
theorem C7_counterexample :
    cordova_main_exit true false false = 0
    ∧ cordova_main_exit true false false ≠ 1 := by
  refine ⟨rfl, by decide⟩

/-- C9: both command wrappers are total over every invocation outcome:
a timeout, a missing command or any raised error yields the non-fatal
failure value (None for the health check, a False triple for the audit),
and only a completed command yields its result. -/
theorem C9_run_command_nonfatal (cmd : String) (t : Nat) (o : SubprocessOutcome) :
    ((∀ r, o ≠ SubprocessOutcome.completed r) →
        (hc_run_command cmd o).1 = none ∧ (audit_run_command t o).1 = false)
    ∧ (∀ r, o = SubprocessOutcome.completed r →
        (hc_run_command cmd o).1 = some r ∧
          (audit_run_command t o).1 = (r.returncode == 0)) := by
  constructor
  · intro h
    cases o with
    | completed r => exact absurd rfl (h r)
    | timedOut => exact ⟨rfl, rfl⟩
    | fileNotFound => exact ⟨rfl, rfl⟩
    | errored m => exact ⟨rfl, rfl⟩
  · intro r h
    subst h
    exact ⟨rfl, rfl⟩

/-- Witness for C9: a timed-out probe yields None and a failure triple. -/
theorem C9_witness :
    (hc_run_command "adb devices" SubprocessOutcome.timedOut).1 = none ∧
      (audit_run_command 10 SubprocessOutcome.timedOut).1 = false :=
  (C9_run_command_nonfatal "adb devices" 10 SubprocessOutcome.timedOut).1
    (fun _ h => SubprocessOutcome.noConfusion h)

/-- The result check_gradle produces when gradle is not installed: not
passed, but flagged as a warning. -/
def gradle_warn_result : AuditResult :=
  AuditResult.mk "Gradle 8.13+" false "Not installed or not in PATH" true
    "Install Gradle 8.13+ or add to PATH"

/-- C10: a result that failed with the warning flag set is written to
the report with status WARNING, never FAIL, while the exit computation
still counts it as not passed; for the singleton list of such a result
the report has no FAIL line yet the process exits 1. -/
theorem C10_warning_masks_fail :
    (∀ r : AuditResult, r.passed = false → r.warning = true →
        report_status r = "WARNING")
    ∧ (([gradle_warn_result].map report_status).all (fun st => st != "FAIL")) = true
    ∧ audit_exit_code (AuditRun.completed [gradle_warn_result]) = 1 := by
  refine ⟨?_, by decide, by decide⟩
  intro r h1 h2
  simp [report_status, h1, h2]

/-- Witness for C10 at the concrete failing-with-warning gradle result. -/
theorem C10_witness : report_status gradle_warn_result = "WARNING" :=
  C10_warning_masks_fail.1 gradle_warn_result rfl rfl

theorem check_paths_go_all_found (norm : String → String) (cur : List String)
    (l : List String)
    (h : ∀ p ∈ l, cur.any (fun q => norm q == norm p) = true) :
    check_paths_go norm cur l = (l, []) := by
  induction l with
  | nil => rfl
  | cons a rest ih =>
    have ha : cur.any (fun q => norm q == norm a) = true :=
      h a (List.mem_cons_self a rest)
    have hrest := ih (fun p hp => h p (List.mem_cons_of_mem a hp))
    simp [check_paths_go, ha, hrest]

theorem check_paths_go_missing_one (norm : String → String) (cur : List String)
    (req : List String) (rp : String)
    (h1 : req.count rp = 1)
    (h2 : ∀ p ∈ req, p ≠ rp → cur.any (fun q => norm q == norm p) = true)
    (h3 : cur.any (fun q => norm q == norm rp) = false) :
    check_paths_go norm cur req = (req.filter (fun p => !(p == rp)), [rp]) := by
  induction req with
  | nil => simp at h1
  | cons a rest ih =>
    by_cases hae : a = rp
    · subst hae
      have hcount : rest.count a = 0 := by
        have hc := h1
        rw [List.count_cons_self] at hc
        omega
      have hnotmem : a ∉ rest := List.count_eq_zero.mp hcount
      have hallfound : ∀ p ∈ rest,
          cur.any (fun q => norm q == norm p) = true := by
        intro p hp
        refine h2 p (List.mem_cons_of_mem _ hp) ?_
        intro hpe
        exact hnotmem (hpe ▸ hp)
      have hgo := check_paths_go_all_found norm cur rest hallfound
      have hfilter : rest.filter (fun p => !(p == a)) = rest := by
        refine List.filter_eq_self.mpr ?_
        intro p hp
        simp only [Bool.not_eq_true', beq_eq_false_iff_ne, ne_eq]
        intro hpe
        exact hnotmem (hpe ▸ hp)
      simp [check_paths_go, h3, hgo, hfilter]
    · have hcount : rest.count rp = 1 := by
        have hc := h1
        rw [List.count_cons] at hc
        simp [hae] at hc
        exact hc
      have hfound : cur.any (fun q => norm q == norm a) = true :=
        h2 a (List.mem_cons_self _ _) hae
      have ihh := ih hcount (fun p hp hne => h2 p (List.mem_cons_of_mem _ hp) hne)
      have hfa : (a == rp) = false := beq_eq_false_iff_ne.mpr hae
      simp [check_paths_go, hfound, ihh, List.filter_cons, hfa]

/-- C8: when exactly one required path has no normalized match among the
current PATH entries and every other required path has one, check_paths
reports exactly that one as missing, exactly the others as existing (in
order), and returns the not-all-present boolean. -/
theorem C8_check_paths_partition (norm : String → String) (cps : String)
    (req : List String) (rp : String)
    (h1 : req.count rp = 1)
    (h2 : ∀ p ∈ req, p ≠ rp →
        (parse_path cps).any (fun q => norm q == norm p) = true)
    (h3 : (parse_path cps).any (fun q => norm q == norm rp) = false) :
    check_paths norm cps req = (req.filter (fun p => !(p == rp)), [rp], false) := by
  unfold check_paths
  rw [check_paths_go_missing_one norm (parse_path cps) req rp h1 h2 h3]
  rfl

/-- The path join of the scripts on the sample SDK root. -/
def sampleJoin (b c : String) : String := b ++ "/" ++ c

/-- The five required paths for a sample SDK root on a disk where all
five subdirectories exist. -/
def sampleReq : List String :=
  get_required_paths (some "C:/Sdk") (fun _ => true) sampleJoin

/-- A registry PATH value holding four of the five required paths. -/
def samplePathValue : String :=
  "C:/Sdk/emulator;C:/Sdk/platform-tools;C:/Sdk/tools;C:/Sdk/tools/bin"

/-- Witness for C8: with all five subdirectories on disk and the PATH
missing exactly the cmdline-tools entry, that entry alone is missing,
the other four are existing, and the check reports not-all-present. -/
theorem C8_witness :
    check_paths (fun s => s) samplePathValue sampleReq =
      (["C:/Sdk/emulator", "C:/Sdk/platform-tools", "C:/Sdk/tools",
        "C:/Sdk/tools/bin"],
       ["C:/Sdk/cmdline-tools/latest/bin"], false) := by
  rw [C8_check_paths_partition (fun s => s) samplePathValue sampleReq
      "C:/Sdk/cmdline-tools/latest/bin" (by decide) (by decide) (by decide)]
  decide

end SmartChat
